import Mathlib

/-!
Shallow embedding of the OPSSCALE contact-form backend (server/server.js and
its two earlier revisions).  The repository contains three revisions of the
same Express server; we embed the contact handler of each revision that the
claims refer to:

* `handleContactA` — the handler of `src/unnamed/part_000` (honeypot,
  normalisation via `String(x || '').trim()`, regex email check, optional DB
  save guarded by `dbReady && Contact`, `await transporter.sendMail` directly
  inside the outer try block, response
  `{success:true, saved, id, mailed: Boolean(transporter)}`).
* `handleContactB` — the first handler of `src/unnamed/part_001` (truthiness
  check of the raw fields, unconditional `new Contact(...)` + `doc.save()`,
  mail send wrapped in an inner try/catch whose failure only leaves
  `mailed = false`).
* `handleContactC` — the second handler of `src/unnamed/part_001` (honeypot
  and normalisation like revision A, unconditional `Contact.create`, mail send
  awaited inside the outer try block, response `{success:true, id}`).

External collaborators (MongoDB, SMTP transport) are modelled as oracle
outcomes carried in a configuration record: `Except.ok` is a resolved
promise, `Except.error` is a rejected one (a thrown exception).  The
side effects performed by a run are returned explicitly in an `Effects`
record so that claims about "no storage write / no mail send" are statable.
-/

namespace OpsScale

/-- JSON-ish values that can appear in a request body field.  `Option JsValue`
models a possibly-absent field (`none` = the property is `undefined`). -/
inductive JsValue where
  | vNull : JsValue
  | vBool : Bool → JsValue
  | vNum : Int → JsValue
  | vStr : String → JsValue
deriving DecidableEq

/-- JavaScript truthiness of a defined value. -/
def jsTruthy : JsValue → Bool
  | JsValue.vNull => false
  | JsValue.vBool b => b
  | JsValue.vNum n => n != 0
  | JsValue.vStr s => s != ""

/-- JavaScript truthiness of a possibly-undefined value
(`undefined` is falsy). -/
def jsTruthyOpt : Option JsValue → Bool
  | none => false
  | some v => jsTruthy v

/-- The `String(...)` coercion of a defined value. -/
def jsToString : JsValue → String
  | JsValue.vNull => "null"
  | JsValue.vBool true => "true"
  | JsValue.vBool false => "false"
  | JsValue.vNum n => toString n
  | JsValue.vStr s => s

/-- The character class `\s` of JavaScript regular expressions (also the set
trimmed by `String.prototype.trim`). -/
def jsWhitespace (c : Char) : Bool :=
  c = ' ' || c = '\t' || c = '\n' || c = '\r' ||
  c = '\x0b' || c = '\x0c' || c = ' ' || c = ' ' ||
  (' ' ≤ c && c ≤ ' ') || c = ' ' || c = ' ' ||
  c = ' ' || c = ' ' || c = '　' || c = '﻿'

/-- JavaScript `String.prototype.trim`: drop leading and trailing whitespace. -/
def jsTrim (s : String) : String :=
  String.mk (((s.toList.dropWhile jsWhitespace).reverse.dropWhile jsWhitespace).reverse)

/-- The expression `String(x || '')` applied to a possibly-undefined field:
falsy values (including `undefined`, `null`, `''`, `0`, `false`) give `''`,
truthy values are coerced with `String(...)`. -/
def coerceOrEmpty : Option JsValue → String
  | none => ""
  | some w => if jsTruthy w then jsToString w else ""

/-- One field of the `cleaned` record: `String(x || '').trim()`. -/
def cleanField (v : Option JsValue) : String := jsTrim (coerceOrEmpty v)

/-- A character admitted by `[^\s@]` in the email regular expression. -/
def isEmailChar (c : Char) : Bool := !(jsWhitespace c) && c != '@'

/-- Split a character list at the first occurrence of `sep`; `none` when
`sep` does not occur. -/
def breakAtChar (sep : Char) : List Char → Option (List Char × List Char)
  | [] => none
  | c :: cs =>
    if c = sep then some ([], cs)
    else
      match breakAtChar sep cs with
      | some (l, r) => some (c :: l, r)
      | none => none

/-- Whether a character list has a dot that is neither its first nor its
last element (the `[^\s@]+\.[^\s@]+` tail of the regex demands exactly such
a dot once all characters are known to be admissible). -/
def hasInteriorDot (r : List Char) : Bool :=
  decide ('.' ∈ (r.drop 1).dropLast)

/-- The test `/^[^\s@]+@[^\s@]+\.[^\s@]+$/.test(s)` of the source: a
non-empty run of non-whitespace non-`@` characters, an `@`, and a tail that
again consists of such characters and contains an interior dot. -/
def emailOk (s : String) : Bool :=
  match breakAtChar '@' s.toList with
  | none => false
  | some (l, r) =>
    !l.isEmpty && l.all isEmailChar && r.all isEmailChar && hasInteriorDot r

/-- The shape `non-whitespace@non-whitespace.non-whitespace` described by the
spec, with the separators `@` and `.` distinguished: some decomposition
`l ++ "@" ++ m ++ "." ++ t` with `l`, `m`, `t` non-empty and free of
whitespace and of `@`. -/
def emailShape (s : String) : Prop :=
  ∃ l m t : List Char,
    l ≠ [] ∧ m ≠ [] ∧ t ≠ [] ∧
    (∀ c ∈ l, isEmailChar c = true) ∧
    (∀ c ∈ m, isEmailChar c = true) ∧
    (∀ c ∈ t, isEmailChar c = true) ∧
    s.toList = l ++ '@' :: (m ++ '.' :: t)

/-- The request body destructured by the handlers:
`const { name, email, message, company } = req.body || {}`. -/
structure ReqBody where
  name : Option JsValue
  email : Option JsValue
  message : Option JsValue
  company : Option JsValue
deriving DecidableEq

/-- The `cleaned` record built by revisions A and C. -/
structure Cleaned where
  name : String
  email : String
  message : String
  ip : String
deriving DecidableEq

/-- Build the `cleaned` record from the destructured body and the request
address (`req.headers['x-forwarded-for'] || req.socket.remoteAddress`). -/
def cleanedOf (b : ReqBody) (reqIp : String) : Cleaned :=
  ⟨cleanField b.name, cleanField b.email, cleanField b.message, reqIp⟩

/-- Side effects observed during one run of a handler. -/
structure Effects where
  storageAttempts : Nat
  stored : List Cleaned
  mailAttempts : Nat
deriving DecidableEq

/-- No side effect at all. -/
def noEffects : Effects := ⟨0, [], 0⟩

/-- Responses of the revision-A contact handler, each constructor one of the
`res...json(...)` exits: the bare honeypot `200 {success:true}`, the
`400 {success:false,error}`, the catch-all `500 {success:false,error}`, and
the `200 {success:true, saved, id, mailed}`. -/
inductive ContactResponse where
  | honeypotOk : ContactResponse
  | badRequest : String → ContactResponse
  | serverError : String → ContactResponse
  | success : Bool → Option String → Bool → ContactResponse
deriving DecidableEq

/-- Server state and collaborator outcomes for revision A: `dbReady` and
`Contact` (non-null model) as set by `connectDB`, `transporter` presence, and
the oracle outcomes of `Contact.create` (`ok` carries `doc._id`) and of
`transporter.sendMail` (`error` is a rejected promise). -/
structure ServerConfig where
  dbReady : Bool
  hasContactModel : Bool
  mailConfigured : Bool
  createResult : Except String String
  sendResult : Except String Unit

/-- The `POST /api/contact` handler of `src/unnamed/part_000`.  A thrown
collaborator error propagates to the outer catch, which answers
`500 {success:false, error:'Server error.'}`; note that the mail send is NOT
wrapped in an inner try/catch in this revision. -/
def handleContactA (cfg : ServerConfig) (body : Option ReqBody) (reqIp : String) :
    ContactResponse × Effects :=
  let b := body.getD ⟨none, none, none, none⟩
  if jsTruthyOpt b.company then
    (ContactResponse.honeypotOk, noEffects)
  else
    let cleaned := cleanedOf b reqIp
    if cleaned.name = "" ∨ emailOk cleaned.email = false ∨ cleaned.message = "" then
      (ContactResponse.badRequest "Invalid input.", noEffects)
    else if cfg.dbReady && cfg.hasContactModel then
      match cfg.createResult with
      | Except.error _ =>
        (ContactResponse.serverError "Server error.", ⟨1, [], 0⟩)
      | Except.ok docId =>
        if cfg.mailConfigured then
          match cfg.sendResult with
          | Except.error _ =>
            (ContactResponse.serverError "Server error.", ⟨1, [cleaned], 1⟩)
          | Except.ok _ =>
            (ContactResponse.success true (some docId) true, ⟨1, [cleaned], 1⟩)
        else
          (ContactResponse.success true (some docId) false, ⟨1, [cleaned], 0⟩)
    else
      if cfg.mailConfigured then
        match cfg.sendResult with
        | Except.error _ =>
          (ContactResponse.serverError "Server error.", ⟨0, [], 1⟩)
        | Except.ok _ =>
          (ContactResponse.success false none true, ⟨0, [], 1⟩)
      else
        (ContactResponse.success false none false, noEffects)

/-- The `GET /health` response of `src/unnamed/part_000`:
`{ ok: true, db: dbReady, mail: Boolean(transporter) }`. -/
structure HealthResponse where
  ok : Bool
  db : Bool
  mail : Bool
deriving DecidableEq

/-- The `GET /health` handler of `src/unnamed/part_000`. -/
def healthHandler (cfg : ServerConfig) : HealthResponse :=
  ⟨true, cfg.dbReady, cfg.mailConfigured⟩

/-- A record as constructed by revision B (`new Contact({name, email,
message, ip: req.ip, ...})`): the raw field values, uncleaned. -/
structure RecordB where
  name : Option JsValue
  email : Option JsValue
  message : Option JsValue
  ip : String
deriving DecidableEq

/-- Side effects observed during one run of the revision-B handler. -/
structure EffectsB where
  storageAttempts : Nat
  stored : List RecordB
  mailAttempts : Nat
deriving DecidableEq

/-- No side effect at all, for revision B. -/
def noEffectsB : EffectsB := ⟨0, [], 0⟩

/-- Server state and collaborator outcomes for revision B: whether `Contact`
is non-null, the outcome of `doc.save()` (`ok` carries `String(doc._id)`),
whether `transporter` is non-null, and the outcome of `transporter.sendMail`
(`ok` carries `info.accepted.length`). -/
structure ServerConfigB where
  hasContactModel : Bool
  saveResult : Except String String
  mailConfigured : Bool
  sendAccepted : Except String Nat

/-- The `POST /api/contact` handler of the first revision in
`src/unnamed/part_001`.  No honeypot and no normalisation; the raw fields are
checked for truthiness only.  `new Contact(...)` with a null `Contact` throws
a TypeError caught by the outer catch.  The mail send happens inside an inner
try/catch: any failure there (a null transporter included) only leaves
`mailed = false`. -/
def handleContactB (cfg : ServerConfigB) (body : Option ReqBody) (reqIp : String) :
    ContactResponse × EffectsB :=
  let b := body.getD ⟨none, none, none, none⟩
  if !jsTruthyOpt b.name || !jsTruthyOpt b.email || !jsTruthyOpt b.message then
    (ContactResponse.badRequest "Missing required fields", noEffectsB)
  else if !cfg.hasContactModel then
    (ContactResponse.serverError "Server error", noEffectsB)
  else
    match cfg.saveResult with
    | Except.error _ =>
      (ContactResponse.serverError "Server error", ⟨1, [], 0⟩)
    | Except.ok docId =>
      let savedDoc : RecordB := ⟨b.name, b.email, b.message, reqIp⟩
      if cfg.mailConfigured then
        match cfg.sendAccepted with
        | Except.error _ =>
          (ContactResponse.success true (some docId) false, ⟨1, [savedDoc], 1⟩)
        | Except.ok k =>
          (ContactResponse.success true (some docId) (k != 0), ⟨1, [savedDoc], 1⟩)
      else
        (ContactResponse.success true (some docId) false, ⟨1, [savedDoc], 0⟩)

/-- Responses of the revision-C contact handler (its success answer is
`{success:true, id}` with no `saved` and no `mailed` field). -/
inductive ContactResponseC where
  | honeypotOk : ContactResponseC
  | badRequest : String → ContactResponseC
  | serverError : String → ContactResponseC
  | success : String → ContactResponseC
deriving DecidableEq

/-- The `POST /api/contact` handler of the second revision in
`src/unnamed/part_001`: honeypot and normalisation as in revision A, then an
unconditional `Contact.create` and an unconditional awaited mail send, both
inside the outer try block only. -/
def handleContactC (createResult : Except String String) (sendResult : Except String Unit)
    (body : Option ReqBody) (reqIp : String) : ContactResponseC × Effects :=
  let b := body.getD ⟨none, none, none, none⟩
  if jsTruthyOpt b.company then
    (ContactResponseC.honeypotOk, noEffects)
  else
    let cleaned := cleanedOf b reqIp
    if cleaned.name = "" ∨ emailOk cleaned.email = false ∨ cleaned.message = "" then
      (ContactResponseC.badRequest "Invalid input.", noEffects)
    else
      match createResult with
      | Except.error _ =>
        (ContactResponseC.serverError "Server error.", ⟨1, [], 0⟩)
      | Except.ok docId =>
        match sendResult with
        | Except.error _ =>
          (ContactResponseC.serverError "Server error.", ⟨1, [cleaned], 1⟩)
        | Except.ok _ =>
          (ContactResponseC.success docId, ⟨1, [cleaned], 1⟩)

/-- A well-formed example submission (spec scenario A): name Ada, a valid
email, a message, honeypot left empty. -/
def adaBody : ReqBody :=
  ⟨some (JsValue.vStr "Ada"), some (JsValue.vStr "ada@example.com"),
   some (JsValue.vStr "hello"), none⟩

/-- A bot-like payload: every required field absent, honeypot filled. -/
def botBody : ReqBody :=
  ⟨none, none, none, some (JsValue.vStr "Acme")⟩

/-- Revision-A state: storage connected and the write succeeds, mail
configured but the send rejects. -/
def cfgMailFails : ServerConfig :=
  ⟨true, true, true, Except.ok "abc123", Except.error "smtp down"⟩

/-- Revision-A state: no storage, no mail. -/
def cfgAllOff : ServerConfig :=
  ⟨false, false, false, Except.ok "unused", Except.ok ()⟩

/-- Revision-A state: storage and mail configured, both succeed. -/
def cfgAllOk : ServerConfig :=
  ⟨true, true, true, Except.ok "abc123", Except.ok ()⟩

/-- Revision-A state: storage configured but the write is rejected. -/
def cfgStorageFails : ServerConfig :=
  ⟨true, true, false, Except.error "write rejected", Except.ok ()⟩

/-- Revision-B state: `Contact` present, `doc.save()` succeeds, transporter
present, `sendMail` rejects. -/
def cfgBMailFails : ServerConfigB :=
  ⟨true, Except.ok "id9", true, Except.error "smtp down"⟩

/-- Revision-B state: `Contact` present but `doc.save()` rejects (as the
mongoose schema does when a required field is blank after its trim). -/
def cfgBSaveRejects : ServerConfigB :=
  ⟨true, Except.error "name: required", false, Except.error "unused"⟩

/-- Revision-B state with storage not configured: `MONGO_URI` unset leaves
`Contact` null. -/
def cfgBNoStorage : ServerConfigB :=
  ⟨false, Except.ok "unused", false, Except.error "unused"⟩

/-- A payload whose name is whitespace only: truthy raw, blank after trim. -/
def blankNameBody : ReqBody :=
  ⟨some (JsValue.vStr " "), some (JsValue.vStr "ada@example.com"),
   some (JsValue.vStr "hello"), none⟩

/-- The `GET /health` response of the second revision in
`src/unnamed/part_001`: `res.json({ ok: true })`, with no `db` and no `mail`
field. -/
structure HealthResponseC where
  ok : Bool
deriving DecidableEq

/-- The `GET /health` route of the second revision in `src/unnamed/part_001`:
it reads no collaborator state at all, so its response is the same whatever
the database connection or the mail transport look like (the two ignored
arguments model that state). -/
def healthHandlerC (_dbConnected : Bool) (_mailConfigured : Bool) : HealthResponseC :=
  ⟨true⟩

end OpsScale

namespace OpsScale

theorem breakAtChar_sound (sep : Char) :
    ∀ (cs l r : List Char), breakAtChar sep cs = some (l, r) →
      cs = l ++ sep :: r ∧ sep ∉ l := by
  intro cs
  induction cs with
  | nil => intro l r h; simp [breakAtChar] at h
  | cons c cs ih =>
    intro l r h
    by_cases hc : c = sep
    · subst hc
      simp [breakAtChar] at h
      obtain ⟨hl, hr⟩ := h
      subst hl; subst hr
      exact ⟨rfl, List.not_mem_nil c⟩
    · rw [breakAtChar, if_neg hc] at h
      cases hbr : breakAtChar sep cs with
      | none => rw [hbr] at h; simp at h
      | some p =>
        obtain ⟨lt, rt⟩ := p
        rw [hbr] at h
        simp only [Option.some.injEq, Prod.mk.injEq] at h
        obtain ⟨hl, hr⟩ := h
        obtain ⟨hcs, hnm⟩ := ih lt rt hbr
        subst hl; subst hr
        constructor
        · rw [hcs]; rfl
        · intro hmem
          rcases List.mem_cons.mp hmem with h1 | h2
          · exact hc h1.symm
          · exact hnm h2

theorem breakAtChar_complete (sep : Char) :
    ∀ (l r : List Char), sep ∉ l →
      breakAtChar sep (l ++ sep :: r) = some (l, r) := by
  intro l
  induction l with
  | nil => intro r _; simp [breakAtChar]
  | cons c l ih =>
    intro r hnm
    have hc : ¬(c = sep) := by
      intro h
      exact hnm (h ▸ List.mem_cons_self c l)
    rw [List.cons_append, breakAtChar, if_neg hc,
        ih r (fun h => hnm (List.mem_cons_of_mem c h))]

theorem interiorDot_of_split (m t : List Char) (hm : m ≠ []) (ht : t ≠ []) :
    hasInteriorDot (m ++ '.' :: t) = true := by
  obtain ⟨a, m1, rfl⟩ := List.exists_cons_of_ne_nil hm
  obtain ⟨b, t1, rfl⟩ := List.exists_cons_of_ne_nil ht
  simp only [hasInteriorDot, decide_eq_true_eq]
  have h1 : ((a :: m1 ++ '.' :: b :: t1).drop 1) = m1 ++ '.' :: b :: t1 := by
    simp
  rw [h1, List.dropLast_append_cons, List.dropLast_cons₂]
  exact List.mem_append_right m1 (List.mem_cons_self _ _)

theorem split_of_interiorDot (r : List Char) (h : hasInteriorDot r = true) :
    ∃ m t, m ≠ [] ∧ t ≠ [] ∧ r = m ++ '.' :: t := by
  simp only [hasInteriorDot, decide_eq_true_eq] at h
  cases r with
  | nil => simp at h
  | cons a r1 =>
    simp only [List.drop_succ_cons, List.drop_zero] at h
    have hr1 : r1 ≠ [] := by
      rintro rfl
      simp at h
    obtain ⟨u, v, huv⟩ := List.append_of_mem h
    have hlast := List.dropLast_append_getLast hr1
    obtain ⟨z, hz⟩ : ∃ z, r1 = (u ++ '.' :: v) ++ [z] :=
      ⟨r1.getLast hr1, by rw [← huv, hlast]⟩
    refine ⟨a :: u, v ++ [z], by simp, by simp, ?_⟩
    rw [hz]
    simp

/-- Claim C4: the email validation predicate of the contact handler accepts
exactly the strings of the shape non-whitespace@non-whitespace.non-whitespace
(the separators `@` and `.` distinguished, the three parts non-empty and free
of whitespace and of `@`, matching the regex `^[^\s@]+@[^\s@]+\.[^\s@]+$`):
"foo", "foo@bar" and "@bar.com" fail validation, "a@b.co" passes. -/
theorem emailOk_matches_shape :
    (∀ s : String, emailOk s = true ↔ emailShape s) ∧
    emailOk "foo" = false ∧ emailOk "foo@bar" = false ∧
    emailOk "@bar.com" = false ∧ emailOk "a@b.co" = true := by
  refine ⟨?_, by decide, by decide, by decide, by decide⟩
  intro s
  constructor
  · intro h
    unfold emailOk at h
    cases hbr : breakAtChar '@' s.toList with
    | none => rw [hbr] at h; simp at h
    | some p =>
      obtain ⟨l, r⟩ := p
      rw [hbr] at h
      simp only [Bool.and_eq_true, Bool.not_eq_true', List.all_eq_true] at h
      obtain ⟨⟨⟨hl, hall⟩, hrall⟩, hdot⟩ := h
      obtain ⟨hcs, _⟩ := breakAtChar_sound '@' s.toList l r hbr
      obtain ⟨m, t, hm, ht, hr⟩ := split_of_interiorDot r hdot
      subst hr
      refine ⟨l, m, t, ?_, hm, ht, hall, ?_, ?_, hcs⟩
      · intro hnil
        rw [hnil] at hl
        simp at hl
      · intro c hc
        exact hrall c (List.mem_append_left _ hc)
      · intro c hc
        exact hrall c (List.mem_append_right _ (List.mem_cons_of_mem '.' hc))
  · rintro ⟨l, m, t, hl, hm, ht, hla, hma, hta, hs⟩
    have hnm : '@' ∉ l := by
      intro hin
      have hbad := hla '@' hin
      simp [isEmailChar] at hbad
    unfold emailOk
    rw [hs, breakAtChar_complete '@' l (m ++ '.' :: t) hnm]
    simp only [Bool.and_eq_true, Bool.not_eq_true', List.all_eq_true]
    refine ⟨⟨⟨?_, hla⟩, ?_⟩, interiorDot_of_split m t hm ht⟩
    · cases l with
      | nil => exact absurd rfl hl
      | cons c cs => simp
    · intro c hc
      rcases List.mem_append.mp hc with h1 | h2
      · exact hma c h1
      · rcases List.mem_cons.mp h2 with h3 | h4
        · rw [h3]; decide
        · exact hta c h4

/-- Claim C2: a payload whose honeypot field `company` holds a non-empty
string makes the contact handler answer the bare success response at once,
with no storage write and no mail send, whatever the other fields hold
(revisions A and C alike). -/
theorem honeypot_shortcircuits (cfg : ServerConfig) (cr : Except String String)
    (sr : Except String Unit) (b : ReqBody) (ip : String) (s : String)
    (hcomp : b.company = some (JsValue.vStr s)) (hs : s ≠ "") :
    handleContactA cfg (some b) ip = (ContactResponse.honeypotOk, noEffects) ∧
    handleContactC cr sr (some b) ip = (ContactResponseC.honeypotOk, noEffects) := by
  have htr : jsTruthyOpt b.company = true := by
    rw [hcomp]
    simp [jsTruthyOpt, jsTruthy, bne_iff_ne, hs]
  constructor
  · simp [handleContactA, htr]
  · simp [handleContactC, htr]

/-- Witness for C2 at the concrete bot payload. -/
theorem honeypot_shortcircuits_witness :
    handleContactA cfgAllOk (some botBody) "198.51.100.7" =
      (ContactResponse.honeypotOk, noEffects) ∧
    handleContactC (Except.ok "cid") (Except.ok ()) (some botBody) "198.51.100.7" =
      (ContactResponseC.honeypotOk, noEffects) :=
  honeypot_shortcircuits cfgAllOk (Except.ok "cid") (Except.ok ()) botBody
    "198.51.100.7" "Acme" rfl (by decide)

/-- Claim C3 fails as stated at two cited places.  First, the bot payload has
`name`, `email` and `message` all missing, yet the revision-A handler answers
the honeypot success, not a validation failure (the honeypot check runs
first).  Second, the whitespace-only name is blank after trimming, yet the
first `part_001` revision checks only raw truthiness, so it never answers the
400 validation failure: it invokes the storage collaborator (`doc.save()`,
which the schema rejects) and answers the 500 server error. -/
theorem missing_fields_not_always_rejected :
    (handleContactA cfgAllOk (some botBody) "192.0.2.1").1 = ContactResponse.honeypotOk ∧
    (handleContactA cfgAllOk (some botBody) "192.0.2.1").1 ≠
      ContactResponse.badRequest "Invalid input." ∧
    (handleContactA cfgAllOk (some botBody) "192.0.2.1").2 = noEffects ∧
    cleanField (some (JsValue.vStr " ")) = "" ∧
    (handleContactB cfgBSaveRejects (some blankNameBody) "192.0.2.1").1 =
      ContactResponse.serverError "Server error" ∧
    (handleContactB cfgBSaveRejects (some blankNameBody) "192.0.2.1").1 ≠
      ContactResponse.badRequest "Missing required fields" ∧
    (handleContactB cfgBSaveRejects (some blankNameBody) "192.0.2.1").2.storageAttempts = 1 := by
  exact ⟨by decide, by decide, by decide, by decide, by decide, by decide, by decide⟩

theorem emailOk_empty_string : emailOk "" = false := rfl

/-- Claim C3 (amended): in the two revisions that trim-normalise before
validating (revision A of `part_000` and the second revision of `part_001`),
for every payload whose honeypot field is absent or falsy and in which
`name`, `email`, or `message` is missing or becomes empty after the
`String(x || '').trim()` normalisation, the handler answers
`400 {success:false, error:'Invalid input.'}` and invokes neither the
storage nor the mail collaborator.  (A payload with a non-empty honeypot
field instead gets the honeypot success; and the first `part_001` revision
checks only raw truthiness, so a whitespace-only field bypasses its
validation failure and reaches the storage collaborator.) -/
theorem invalid_fields_rejected (cfg : ServerConfig) (cr : Except String String)
    (sr : Except String Unit) (b : ReqBody) (ip : String)
    (hhp : jsTruthyOpt b.company = false)
    (hempty : cleanField b.name = "" ∨ cleanField b.email = "" ∨
      cleanField b.message = "") :
    handleContactA cfg (some b) ip =
      (ContactResponse.badRequest "Invalid input.", noEffects) ∧
    handleContactC cr sr (some b) ip =
      (ContactResponseC.badRequest "Invalid input.", noEffects) := by
  rcases hempty with h | h | h <;> constructor <;>
    simp [handleContactA, handleContactC, hhp, cleanedOf, h, emailOk_empty_string]

/-- Witness for the amended C3 at a payload with a blank-after-trim name. -/
theorem invalid_fields_rejected_witness :
    handleContactA cfgAllOk
      (some ⟨some (JsValue.vStr "   "), some (JsValue.vStr "ada@example.com"),
        some (JsValue.vStr "hello"), none⟩) "192.0.2.1" =
      (ContactResponse.badRequest "Invalid input.", noEffects) ∧
    handleContactC (Except.ok "cid") (Except.ok ())
      (some ⟨some (JsValue.vStr "   "), some (JsValue.vStr "ada@example.com"),
        some (JsValue.vStr "hello"), none⟩) "192.0.2.1" =
      (ContactResponseC.badRequest "Invalid input.", noEffects) :=
  invalid_fields_rejected cfgAllOk (Except.ok "cid") (Except.ok ())
    ⟨some (JsValue.vStr "   "), some (JsValue.vStr "ada@example.com"),
      some (JsValue.vStr "hello"), none⟩ "192.0.2.1" (by decide) (Or.inl (by decide))

/-- Claim C5 fails as stated for the first `part_001` revision: there the
handler builds `new Contact(...)` unconditionally, so with storage not
configured (`Contact` null) a valid Ada submission throws a TypeError and is
answered with the 500 server error — an error produced exactly by the
absence of storage. -/
theorem storage_absent_throws_in_revision_b :
    (handleContactB cfgBNoStorage (some adaBody) "203.0.113.9").1 =
      ContactResponse.serverError "Server error" ∧
    (handleContactB cfgBNoStorage (some adaBody) "203.0.113.9").1 ≠
      ContactResponse.success false none false := by
  exact ⟨by decide, by decide⟩

/-- Claim C5 (amended): a valid submission processed while storage is not
configured makes the `part_000` handler answer the success response with
`saved:false` and `id:null` — no throw and no server error from the absence
of storage (its mail leg, when configured, assumed to resolve, since mail
failure is a separate concern); the first `part_001` revision instead
constructs a Contact document unconditionally, so with storage unconfigured
it throws and answers the 500 server error. -/
theorem storage_disabled_degrades (cfg : ServerConfig) (cfgB : ServerConfigB)
    (bA bB : ReqBody) (ip : String)
    (hhp : jsTruthyOpt bA.company = false)
    (hname : (cleanedOf bA ip).name ≠ "")
    (hemail : emailOk (cleanedOf bA ip).email = true)
    (hmsg : (cleanedOf bA ip).message ≠ "")
    (hdb : cfg.dbReady = false) (_hmodel : cfg.hasContactModel = false)
    (hsend : cfg.mailConfigured = true → cfg.sendResult = Except.ok ())
    (hnameB : jsTruthyOpt bB.name = true) (hemailB : jsTruthyOpt bB.email = true)
    (hmsgB : jsTruthyOpt bB.message = true)
    (hmodelB : cfgB.hasContactModel = false) :
    handleContactA cfg (some bA) ip =
      (ContactResponse.success false none cfg.mailConfigured,
       ⟨0, [], if cfg.mailConfigured then 1 else 0⟩) ∧
    handleContactB cfgB (some bB) ip =
      (ContactResponse.serverError "Server error", noEffectsB) := by
  constructor
  · cases hm : cfg.mailConfigured with
    | false => simp [handleContactA, hhp, hname, hemail, hmsg, hdb, hm, noEffects]
    | true => simp [handleContactA, hhp, hname, hemail, hmsg, hdb, hm, hsend hm, noEffects]
  · simp [handleContactB, hnameB, hemailB, hmsgB, hmodelB]

/-- Witness for the amended C5 at the Ada payload: storage absent in both
revisions, mail absent. -/
theorem storage_disabled_degrades_witness :
    handleContactA cfgAllOff (some adaBody) "192.0.2.1" =
      (ContactResponse.success false none cfgAllOff.mailConfigured,
       ⟨0, [], if cfgAllOff.mailConfigured then 1 else 0⟩) ∧
    handleContactB cfgBNoStorage (some adaBody) "192.0.2.1" =
      (ContactResponse.serverError "Server error", noEffectsB) :=
  storage_disabled_degrades cfgAllOff cfgBNoStorage adaBody adaBody "192.0.2.1"
    (by decide) (by decide) (by decide) (by decide) rfl rfl (by intro h; cases h)
    (by decide) (by decide) (by decide) rfl

/-- Claim C6: a valid submission with storage configured and the write
succeeding yields `{success:true, saved:true, id:<the created id>, mailed}`
with a non-null identifier; with mail additionally configured and the
transport accepting, `mailed` is true.  The response is the four-field
success shape of `ContactResponse.success`. -/
theorem storage_success_response (cfg : ServerConfig) (b : ReqBody) (ip docId : String)
    (hhp : jsTruthyOpt b.company = false)
    (hname : (cleanedOf b ip).name ≠ "")
    (hemail : emailOk (cleanedOf b ip).email = true)
    (hmsg : (cleanedOf b ip).message ≠ "")
    (hdb : cfg.dbReady = true) (hmodel : cfg.hasContactModel = true)
    (hcreate : cfg.createResult = Except.ok docId)
    (hsend : cfg.mailConfigured = true → cfg.sendResult = Except.ok ()) :
    handleContactA cfg (some b) ip =
      (ContactResponse.success true (some docId) cfg.mailConfigured,
       ⟨1, [cleanedOf b ip], if cfg.mailConfigured then 1 else 0⟩) := by
  cases hm : cfg.mailConfigured with
  | false =>
    simp [handleContactA, hhp, hname, hemail, hmsg, hdb, hmodel, hcreate, hm]
  | true =>
    simp [handleContactA, hhp, hname, hemail, hmsg, hdb, hmodel, hcreate, hm, hsend hm]

/-- Witness for C6 at the Ada payload with every collaborator healthy. -/
theorem storage_success_response_witness :
    handleContactA cfgAllOk (some adaBody) "192.0.2.1" =
      (ContactResponse.success true (some "abc123") cfgAllOk.mailConfigured,
       ⟨1, [cleanedOf adaBody "192.0.2.1"], if cfgAllOk.mailConfigured then 1 else 0⟩) :=
  storage_success_response cfgAllOk adaBody "192.0.2.1" "abc123" (by decide) (by decide)
    (by decide) (by decide) rfl rfl rfl (fun _ => rfl)

/-- Claim C7: a valid submission with storage configured whose write is
rejected makes the revision-A handler answer the server-error response
`500 {success:false, error:'Server error.'}` — the failure is not degraded
to a success with `saved:false`. -/
theorem storage_failure_server_error (cfg : ServerConfig) (b : ReqBody) (ip e : String)
    (hhp : jsTruthyOpt b.company = false)
    (hname : (cleanedOf b ip).name ≠ "")
    (hemail : emailOk (cleanedOf b ip).email = true)
    (hmsg : (cleanedOf b ip).message ≠ "")
    (hdb : cfg.dbReady = true) (hmodel : cfg.hasContactModel = true)
    (hcreate : cfg.createResult = Except.error e) :
    handleContactA cfg (some b) ip =
      (ContactResponse.serverError "Server error.", ⟨1, [], 0⟩) := by
  simp [handleContactA, hhp, hname, hemail, hmsg, hdb, hmodel, hcreate]

/-- Witness for C7 at the Ada payload with a rejecting storage backend. -/
theorem storage_failure_server_error_witness :
    handleContactA cfgStorageFails (some adaBody) "192.0.2.1" =
      (ContactResponse.serverError "Server error.", ⟨1, [], 0⟩) :=
  storage_failure_server_error cfgStorageFails adaBody "192.0.2.1" "write rejected"
    (by decide) (by decide) (by decide) (by decide) rfl rfl rfl

/-- Claim C1 fails as stated for the revision-A handler: with storage and
mail configured, the write succeeding and the send rejecting, the Ada
payload is answered with the server error — the mail failure propagates to
the outer catch and does change the overall outcome. -/
theorem mail_failure_breaks_success_in_revision_a :
    (handleContactA cfgMailFails (some adaBody) "203.0.113.5").1 =
      ContactResponse.serverError "Server error." ∧
    (handleContactA cfgMailFails (some adaBody) "203.0.113.5").1 ≠
      ContactResponse.success true (some "abc123") false := by
  exact ⟨by decide, by decide⟩

/-- Claim C1 (amended): in the `part_001` revision whose mail send sits in an
inner try/catch, a failure of the notification delivery does not change the
overall outcome: the handler still answers the success response for the
submission itself (the stored record untouched), the failure surfacing only
as `mailed:false`.  In the `part_000` revision the awaited send has no inner
try/catch and a rejection becomes a server error instead. -/
theorem contactB_mail_failure_soft (cfg : ServerConfigB) (b : ReqBody)
    (ip docId e : String)
    (hname : jsTruthyOpt b.name = true) (hemail : jsTruthyOpt b.email = true)
    (hmsg : jsTruthyOpt b.message = true)
    (hmodel : cfg.hasContactModel = true)
    (hsave : cfg.saveResult = Except.ok docId)
    (hmail : cfg.mailConfigured = true)
    (hsend : cfg.sendAccepted = Except.error e) :
    handleContactB cfg (some b) ip =
      (ContactResponse.success true (some docId) false,
       ⟨1, [⟨b.name, b.email, b.message, ip⟩], 1⟩) := by
  simp [handleContactB, hname, hemail, hmsg, hmodel, hsave, hmail, hsend]

/-- Witness for the amended C1 at the Ada payload with a rejecting
transport. -/
theorem contactB_mail_failure_soft_witness :
    handleContactB cfgBMailFails (some adaBody) "198.51.100.7" =
      (ContactResponse.success true (some "id9") false,
       ⟨1, [⟨some (JsValue.vStr "Ada"), some (JsValue.vStr "ada@example.com"),
         some (JsValue.vStr "hello"), "198.51.100.7"⟩], 1⟩) :=
  contactB_mail_failure_soft cfgBMailFails adaBody "198.51.100.7" "id9" "smtp down"
    (by decide) (by decide) (by decide) rfl rfl rfl rfl

/-- Claim C10: a server-error answer does not imply that nothing was
persisted: when the storage write succeeds and the subsequently awaited mail
send throws inside the outer try block, the created record stays in the
store while the caller receives the server error (revisions A and C alike —
no rollback across the persist-then-notify sequence). -/
theorem mail_throw_keeps_stored_record (cfg : ServerConfig) (b : ReqBody)
    (ip docId e : String)
    (hhp : jsTruthyOpt b.company = false)
    (hname : (cleanedOf b ip).name ≠ "")
    (hemail : emailOk (cleanedOf b ip).email = true)
    (hmsg : (cleanedOf b ip).message ≠ "")
    (hdb : cfg.dbReady = true) (hmodel : cfg.hasContactModel = true)
    (hcreate : cfg.createResult = Except.ok docId)
    (hmail : cfg.mailConfigured = true)
    (hsend : cfg.sendResult = Except.error e) :
    handleContactA cfg (some b) ip =
      (ContactResponse.serverError "Server error.", ⟨1, [cleanedOf b ip], 1⟩) ∧
    handleContactC (Except.ok docId) (Except.error e) (some b) ip =
      (ContactResponseC.serverError "Server error.", ⟨1, [cleanedOf b ip], 1⟩) := by
  constructor
  · simp [handleContactA, hhp, hname, hemail, hmsg, hdb, hmodel, hcreate, hmail, hsend]
  · simp [handleContactC, hhp, hname, hemail, hmsg]

/-- Witness for C10 at the Ada payload: storage write succeeds, send
rejects. -/
theorem mail_throw_keeps_stored_record_witness :
    handleContactA cfgMailFails (some adaBody) "203.0.113.5" =
      (ContactResponse.serverError "Server error.",
       ⟨1, [cleanedOf adaBody "203.0.113.5"], 1⟩) ∧
    handleContactC (Except.ok "abc123") (Except.error "smtp down")
      (some adaBody) "203.0.113.5" =
      (ContactResponseC.serverError "Server error.",
       ⟨1, [cleanedOf adaBody "203.0.113.5"], 1⟩) :=
  mail_throw_keeps_stored_record cfgMailFails adaBody "203.0.113.5" "abc123" "smtp down"
    (by decide) (by decide) (by decide) (by decide) rfl rfl rfl rfl rfl

/-- Claim C8 fails as stated for the health route cited in the second
`part_001` revision: that route is `res.json({ ok: true })`, a constant — it
answers the same one-field body with the database down and the mail
transport absent as with both up, so it carries no `db` and no `mail` field
and reflects no collaborator availability. -/
theorem health_constant_in_revision_c :
    healthHandlerC false false = healthHandlerC true true ∧
    healthHandlerC false false = ⟨true⟩ := by
  exact ⟨rfl, rfl⟩

/-- Claim C8 (amended): the `part_000` health endpoint always answers
`{ok:true, db, mail}` where `db` is the storage readiness flag and `mail`
the transporter presence, and the two flags bound the collaborator use of
the contact handler (no storage attempt when `db` is false, no mail attempt
when `mail` is false); the health route of the second `part_001` revision
instead answers the constant `{ok:true}` whatever the collaborator state. -/
theorem health_reflects_collaborators (cfg : ServerConfig) (body : Option ReqBody)
    (ip : String) (dbc mc : Bool) :
    (healthHandler cfg).ok = true ∧
    (healthHandler cfg).db = cfg.dbReady ∧
    (healthHandler cfg).mail = cfg.mailConfigured ∧
    (handleContactA cfg body ip).2.storageAttempts ≤
      (if (healthHandler cfg).db then 1 else 0) ∧
    (handleContactA cfg body ip).2.mailAttempts ≤
      (if (healthHandler cfg).mail then 1 else 0) ∧
    healthHandlerC dbc mc = ⟨true⟩ := by
  refine ⟨rfl, rfl, rfl, ?_, ?_, rfl⟩ <;>
  · unfold handleContactA healthHandler noEffects
    cases hdb : cfg.dbReady <;> cases hm : cfg.mailConfigured <;>
      simp only [Bool.false_and, Bool.true_and, if_false, if_true] <;>
      (repeat' split) <;> simp

/-- Claim C9: normalisation is total over arbitrary JSON field values: each
field is `String(x || '')`-coerced and trimmed (a total function of the
model, so no throw is possible), missing and null fields become the empty
string, and a non-string value such as the number 42 is coerced to its
string rendering "42" and can then pass validation, as the final concrete
run shows. -/
theorem normalization_total :
    cleanField none = "" ∧
    cleanField (some JsValue.vNull) = "" ∧
    (∀ s : String, cleanField (some (JsValue.vStr s)) = jsTrim s) ∧
    cleanField (some (JsValue.vNum 42)) = "42" ∧
    cleanField (some (JsValue.vBool false)) = "" ∧
    handleContactA cfgAllOff
      (some ⟨some (JsValue.vNum 42), some (JsValue.vStr "a@b.co"),
        some (JsValue.vStr "hi"), none⟩) "192.0.2.1" =
      (ContactResponse.success false none false, noEffects) := by
  refine ⟨rfl, rfl, ?_, by decide, rfl, by decide⟩
  intro s
  by_cases h : s = ""
  · subst h; rfl
  · simp [cleanField, coerceOrEmpty, jsTruthy, jsToString, bne_iff_ne, h]

end OpsScale
